import Mathlib

/-!
Verification of `convert_to_pdf.py`, an HTML-to-PDF converter that delegates
to one of four external backend adapters (selenium, playwright, weasyprint,
pdfkit) either by explicit name or through an "auto" fallback policy.

The embedding models each adapter as a function of an environment describing
the outcomes of its external effects (whether the backing package can be
loaded, whether each effectful step raises), mirroring the try/except
structure of the Python code via an `Except`-valued body plus explicit
handlers.  The selector `html_to_pdf` records, besides its boolean result,
the ordered list of adapters it invoked (with the output path passed to
each) and the diagnostic messages it prints, so that claims about
"which adapters run" and "what is printed" are statable.
-/

/-- Names of the four backend adapters of `convert_to_pdf.py`. -/
inductive AdapterName
  | selenium
  | playwright
  | weasyprint
  | pdfkit
deriving DecidableEq

/-- Diagnostic lines printed by the program, one constructor per distinct
`print` message shape in the source. -/
inductive Msg
  | notFound (path : String)                         -- "HTML file not found: ..."
  | converting (inp out : String)                    -- "Converting ... to ..."
  | tryingMethod (m : AdapterName)                   -- "Trying <name>..."
  | pdfGenerated (m : AdapterName) (out : String)    -- "PDF generated successfully ..."
  | depMissing (m : AdapterName)                     -- "... not installed. Install with ..."
  | convFailed (m : AdapterName)                     -- "... conversion failed: ..."
  | allFailed                                        -- "All conversion methods failed"
  | unknownMethod (m : String)                       -- "Unknown method: ..."
deriving DecidableEq

/-- Python exception classes relevant to the adapters: every adapter has the
two handlers `except ImportError` and `except Exception`. -/
inductive PyErr
  | importError
  | exception
deriving DecidableEq

/-- Environment of `convert_with_selenium`: whether the selenium package is
installed, whether `webdriver.Chrome(...)` raises, and whether the body of
the inner try (page load, `Page.printToPDF`, file write) raises. -/
structure SeleniumEnv where
  depInstalled : Bool
  chromeRaises : Bool
  renderRaises : Bool
deriving DecidableEq

/-- Environment of `convert_with_playwright`: whether the playwright package
is installed, whether `p.chromium.launch()` raises, and whether the
remaining body (`goto`, `page.pdf`) raises. -/
structure PlaywrightEnv where
  depInstalled : Bool
  launchRaises : Bool
  renderRaises : Bool
deriving DecidableEq

/-- Environment of `convert_with_weasyprint`: whether the weasyprint package
is installed and whether rendering (`HTML(...)`, `write_pdf`) raises. -/
structure WeasyprintEnv where
  depInstalled : Bool
  renderRaises : Bool
deriving DecidableEq

/-- Environment of `convert_with_pdfkit`: whether the pdfkit package is
installed and whether `pdfkit.from_file` raises. -/
structure PdfkitEnv where
  depInstalled : Bool
  renderRaises : Bool
deriving DecidableEq

/-- Result of running the body of an adapter's outer `try` block: the
outcome (a value, or a raised Python exception), whether the adapter's
external resource (browser process / driver session) was acquired, whether
it was released by the time control left the block, and the messages
printed inside the block. -/
structure TryResult where
  outcome : Except PyErr Bool
  acquired : Bool
  released : Bool
  msgs : List Msg

/-- Observable outcome of one adapter call: the boolean the adapter
returns, whether its external resource was acquired and released, and the
messages it printed.  The adapters return this directly (not an `Except`),
reflecting that no exception escapes their boundary. -/
structure AdapterRun where
  result : Bool
  acquired : Bool
  released : Bool
  msgs : List Msg
deriving DecidableEq

/-- Body of the outer `try` of `convert_with_selenium` (source lines 27-86).
A missing selenium package raises `ImportError` at the `from selenium ...`
lines; a failing `webdriver.Chrome(...)` raises before the driver exists
(nothing acquired); once the driver exists, the inner `try ... finally:
driver.quit()` guarantees the driver is quit on both the success path and
the raising path. -/
def seleniumTry (env : SeleniumEnv) (_html_file output_file : String) : TryResult :=
  if !env.depInstalled then
    ⟨.error .importError, false, false, []⟩
  else if env.chromeRaises then
    ⟨.error .exception, false, false, []⟩
  else if env.renderRaises then
    ⟨.error .exception, true, true, []⟩
  else
    ⟨.ok true, true, true, [.pdfGenerated .selenium output_file]⟩

/-- Embeds `convert_with_selenium` (source lines 15-94): the outer try body
wrapped in `except ImportError` and `except Exception` handlers, each
printing a diagnostic and returning `False`. -/
def convert_with_selenium (env : SeleniumEnv) (html_file output_file : String) : AdapterRun :=
  let t := seleniumTry env html_file output_file
  match t.outcome with
  | .ok b => ⟨b, t.acquired, t.released, t.msgs⟩
  | .error .importError => ⟨false, t.acquired, t.released, t.msgs ++ [.depMissing .selenium]⟩
  | .error .exception => ⟨false, t.acquired, t.released, t.msgs ++ [.convFailed .selenium]⟩

/-- Body of the outer `try` of `convert_with_playwright` (source lines
223-254).  If `p.chromium.launch()` raises, no browser was acquired.  If
`goto`/`page.pdf` raise, the explicit `browser.close()` on line 251 is
skipped, but the `with sync_playwright() as p:` block's exit runs on every
path and stops the Playwright driver, which terminates the browser it
launched; so the browser resource is released on the raising path as well. -/
def playwrightTry (env : PlaywrightEnv) (_html_file output_file : String) : TryResult :=
  if !env.depInstalled then
    ⟨.error .importError, false, false, []⟩
  else if env.launchRaises then
    ⟨.error .exception, false, false, []⟩
  else if env.renderRaises then
    ⟨.error .exception, true, true, []⟩
  else
    ⟨.ok true, true, true, [.pdfGenerated .playwright output_file]⟩

/-- Embeds `convert_with_playwright` (source lines 211-262). -/
def convert_with_playwright (env : PlaywrightEnv) (html_file output_file : String) : AdapterRun :=
  let t := playwrightTry env html_file output_file
  match t.outcome with
  | .ok b => ⟨b, t.acquired, t.released, t.msgs⟩
  | .error .importError => ⟨false, t.acquired, t.released, t.msgs ++ [.depMissing .playwright]⟩
  | .error .exception => ⟨false, t.acquired, t.released, t.msgs ++ [.convFailed .playwright]⟩

/-- Body of the outer `try` of `convert_with_weasyprint` (source lines
109-146).  WeasyPrint renders in-process: the adapter opens no external
browser process or driver session, so no resource is acquired. -/
def weasyprintTry (env : WeasyprintEnv) (_html_file output_file : String) : TryResult :=
  if !env.depInstalled then
    ⟨.error .importError, false, false, []⟩
  else if env.renderRaises then
    ⟨.error .exception, false, false, []⟩
  else
    ⟨.ok true, false, false, [.pdfGenerated .weasyprint output_file]⟩

/-- Embeds `convert_with_weasyprint` (source lines 97-153). -/
def convert_with_weasyprint (env : WeasyprintEnv) (html_file output_file : String) : AdapterRun :=
  let t := weasyprintTry env html_file output_file
  match t.outcome with
  | .ok b => ⟨b, t.acquired, t.released, t.msgs⟩
  | .error .importError => ⟨false, t.acquired, t.released, t.msgs ++ [.depMissing .weasyprint]⟩
  | .error .exception => ⟨false, t.acquired, t.released, t.msgs ++ [.convFailed .weasyprint]⟩

/-- Body of the outer `try` of `convert_with_pdfkit` (source lines 168-200).
pdfkit shells out to wkhtmltopdf synchronously inside `from_file`; the
adapter itself holds no browser process or driver session. -/
def pdfkitTry (env : PdfkitEnv) (_html_file output_file : String) : TryResult :=
  if !env.depInstalled then
    ⟨.error .importError, false, false, []⟩
  else if env.renderRaises then
    ⟨.error .exception, false, false, []⟩
  else
    ⟨.ok true, false, false, [.pdfGenerated .pdfkit output_file]⟩

/-- Embeds `convert_with_pdfkit` (source lines 156-208). -/
def convert_with_pdfkit (env : PdfkitEnv) (html_file output_file : String) : AdapterRun :=
  let t := pdfkitTry env html_file output_file
  match t.outcome with
  | .ok b => ⟨b, t.acquired, t.released, t.msgs⟩
  | .error .importError => ⟨false, t.acquired, t.released, t.msgs ++ [.depMissing .pdfkit]⟩
  | .error .exception => ⟨false, t.acquired, t.released, t.msgs ++ [.convFailed .pdfkit]⟩

/-- One environment per adapter, fixing the external world for a whole
`html_to_pdf` call. -/
structure AdapterEnvs where
  selenium : SeleniumEnv
  playwright : PlaywrightEnv
  weasyprint : WeasyprintEnv
  pdfkit : PdfkitEnv
deriving DecidableEq

/-- Dispatch to the adapter named `m`. -/
def runAdapter (envs : AdapterEnvs) (html_file output_file : String) :
    AdapterName → AdapterRun
  | .selenium => convert_with_selenium envs.selenium html_file output_file
  | .playwright => convert_with_playwright envs.playwright html_file output_file
  | .weasyprint => convert_with_weasyprint envs.weasyprint html_file output_file
  | .pdfkit => convert_with_pdfkit envs.pdfkit html_file output_file

/-- The fixed preference order of the `methods` list in `html_to_pdf`
(source lines 298-303). -/
def autoMethods : List AdapterName :=
  [.selenium, .playwright, .weasyprint, .pdfkit]

/-- Index of the last occurrence of `c` in `l`, if any. -/
def lastIndexOf (c : Char) : List Char → Option Nat
  | [] => none
  | a :: rest =>
    match lastIndexOf c rest with
    | some i => some (i + 1)
    | none => if a = c then some 0 else none

/-- Start index of the pathlib suffix of a file name: the last dot, provided
it is neither the first nor the last character (so dotfiles have no suffix
and a trailing dot is not a suffix), as in `PurePath.suffix`. -/
def suffix_start (name : List Char) : Option Nat :=
  match lastIndexOf '.' name with
  | some i => if 0 < i ∧ i + 1 < name.length then some i else none
  | none => none

/-- Split a POSIX path into the directory part (up to and including the last
slash) and the final component. -/
def split_name (path : List Char) : List Char × List Char :=
  match lastIndexOf '/' path with
  | some i => (path.take (i + 1), path.drop (i + 1))
  | none => ([], path)

/-- Embeds `Path(path).with_suffix(suffix)` from pathlib for POSIX paths
with a nonempty final component, as used on source line 291: replace the
final component's suffix by `suffix`, or append `suffix` when the component
has none. -/
def with_suffix (path suffix : String) : String :=
  let parts := split_name path.toList
  let newName :=
    match suffix_start parts.2 with
    | some i => parts.2.take i ++ suffix.toList
    | none => parts.2 ++ suffix.toList
  String.mk (parts.1 ++ newName)

/-- Output-path resolution of `html_to_pdf` (source lines 290-291): the
caller-supplied path, or the input path with its suffix replaced by
`.pdf`. -/
def resolve_output (html_file : String) : Option String → String
  | none => with_suffix html_file ".pdf"
  | some o => o

/-- Observable outcome of one `html_to_pdf` call: the returned boolean, the
adapters invoked in order (each with the output path it was given), and the
printed messages. -/
structure SelectorRun where
  result : Bool
  invoked : List (AdapterName × String)
  msgs : List Msg
deriving DecidableEq

/-- The `for method_name, converter in methods:` loop of `html_to_pdf`
(source lines 305-311): run each adapter in order, returning `True` at the
first success; print the all-failed diagnostic and return `False` when the
list is exhausted. -/
def tryInOrder (envs : AdapterEnvs) (html_file output_file : String) :
    List AdapterName → SelectorRun
  | [] => ⟨false, [], [.allFailed]⟩
  | m :: rest =>
    let r := runAdapter envs html_file output_file m
    if r.result then
      ⟨true, [(m, output_file)], .tryingMethod m :: r.msgs⟩
    else
      let s := tryInOrder envs html_file output_file rest
      ⟨s.result, (m, output_file) :: s.invoked, (.tryingMethod m :: r.msgs) ++ s.msgs⟩

/-- Embeds `html_to_pdf` (source lines 265-323): validate that the input
exists, resolve the output path, then dispatch on `method` — the "auto"
fallback loop, one branch per known adapter name, or the unknown-method
failure. -/
def html_to_pdf (fsExists : String → Bool) (envs : AdapterEnvs)
    (html_file : String) (output_file : Option String) (method : String) :
    SelectorRun :=
  if !fsExists html_file then
    ⟨false, [], [.notFound html_file]⟩
  else
    let out := resolve_output html_file output_file
    let header := [Msg.converting html_file out]
    if method = "auto" then
      let s := tryInOrder envs html_file out autoMethods
      ⟨s.result, s.invoked, header ++ s.msgs⟩
    else if method = "selenium" then
      let r := convert_with_selenium envs.selenium html_file out
      ⟨r.result, [(.selenium, out)], header ++ r.msgs⟩
    else if method = "weasyprint" then
      let r := convert_with_weasyprint envs.weasyprint html_file out
      ⟨r.result, [(.weasyprint, out)], header ++ r.msgs⟩
    else if method = "pdfkit" then
      let r := convert_with_pdfkit envs.pdfkit html_file out
      ⟨r.result, [(.pdfkit, out)], header ++ r.msgs⟩
    else if method = "playwright" then
      let r := convert_with_playwright envs.playwright html_file out
      ⟨r.result, [(.playwright, out)], header ++ r.msgs⟩
    else
      ⟨false, [], header ++ [.unknownMethod method]⟩

/-- Embeds the exit-code mapping of `main` (source lines 359-365):
`sys.exit(0 if success else 1)`. -/
def mainExitCode (fsExists : String → Bool) (envs : AdapterEnvs)
    (html_file : String) (output_file : Option String) (method : String) : Nat :=
  if (html_to_pdf fsExists envs html_file output_file method).result then 0 else 1

/-- Spec-side characterization of the fallback policy's attempt list: every
adapter up to and including the first one on which `f` holds, or the whole
list when `f` holds nowhere. -/
def attemptsUntilSuccess (f : AdapterName → Bool) : List AdapterName → List AdapterName
  | [] => []
  | m :: rest => if f m then [m] else m :: attemptsUntilSuccess f rest

/-- Spec-side predicate for one adapter call: either it succeeded and
printed the success line, or it failed and printed exactly one failure
diagnostic (missing dependency, or conversion failed). -/
def reportsOutcome (m : AdapterName) (out : String) (r : AdapterRun) : Prop :=
  (r.result = true ∧ r.msgs = [.pdfGenerated m out])
  ∨ (r.result = false ∧ (r.msgs = [.depMissing m] ∨ r.msgs = [.convFailed m]))

/-- Environments in which every adapter's dependency is installed and no
step raises. -/
def allOkEnvs : AdapterEnvs :=
  ⟨⟨true, false, false⟩, ⟨true, false, false⟩, ⟨true, false⟩, ⟨true, false⟩⟩

/-- Environments in which every adapter's rendering step raises. -/
def allRaiseEnvs : AdapterEnvs :=
  ⟨⟨true, false, true⟩, ⟨true, false, true⟩, ⟨true, true⟩, ⟨true, true⟩⟩

theorem tryInOrder_invoked_result (envs : AdapterEnvs) (inp out : String)
    (l : List AdapterName) :
    (tryInOrder envs inp out l).invoked
      = (attemptsUntilSuccess (fun m => (runAdapter envs inp out m).result) l).map
          (fun m => (m, out))
    ∧ (tryInOrder envs inp out l).result
      = l.any (fun m => (runAdapter envs inp out m).result) := by
  induction l with
  | nil => simp [tryInOrder, attemptsUntilSuccess]
  | cons m rest ih =>
    by_cases h : (runAdapter envs inp out m).result = true
    · simp [tryInOrder, attemptsUntilSuccess, h]
    · rw [Bool.not_eq_true] at h
      simp [tryInOrder, attemptsUntilSuccess, h, ih.1, ih.2]

/-- C1: with `method = "auto"` and an existing input, `html_to_pdf` invokes
the adapters in the fixed priority order selenium, playwright, weasyprint,
pdfkit up to and including the first one that returns `True` (never any
adapter after it), and returns `True` exactly when some adapter in that
order succeeds; if all four fail it returns `False`. -/
theorem auto_mode_tries_adapters_in_priority_order
    (fs : String → Bool) (envs : AdapterEnvs) (inp : String) (outOpt : Option String)
    (h : fs inp = true) :
    (html_to_pdf fs envs inp outOpt "auto").invoked
      = (attemptsUntilSuccess
          (fun m => (runAdapter envs inp (resolve_output inp outOpt) m).result)
          autoMethods).map (fun m => (m, resolve_output inp outOpt))
    ∧ (html_to_pdf fs envs inp outOpt "auto").result
      = autoMethods.any
          (fun m => (runAdapter envs inp (resolve_output inp outOpt) m).result) := by
  have t := tryInOrder_invoked_result envs inp (resolve_output inp outOpt) autoMethods
  simp only [html_to_pdf, h, Bool.not_true, Bool.false_eq_true, if_false, if_true,
    reduceIte]
  exact ⟨t.1, t.2⟩

/-- Closed instance of C1 at a concrete filesystem, environments and input. -/
theorem auto_mode_tries_adapters_in_priority_order_witness :
    (html_to_pdf (fun _ => true) allRaiseEnvs "poster.html" none "auto").invoked
      = (attemptsUntilSuccess
          (fun m => (runAdapter allRaiseEnvs "poster.html"
            (resolve_output "poster.html" none) m).result)
          autoMethods).map (fun m => (m, resolve_output "poster.html" none))
    ∧ (html_to_pdf (fun _ => true) allRaiseEnvs "poster.html" none "auto").result
      = autoMethods.any
          (fun m => (runAdapter allRaiseEnvs "poster.html"
            (resolve_output "poster.html" none) m).result) :=
  auto_mode_tries_adapters_in_priority_order (fun _ => true) allRaiseEnvs
    "poster.html" none rfl

/-- C2: with an existing input and `method` one of the four known adapter
names, `html_to_pdf` invokes exactly that adapter and no other, and returns
exactly the boolean that adapter returned. -/
theorem explicit_method_invokes_exactly_that_adapter
    (fs : String → Bool) (envs : AdapterEnvs) (inp : String) (outOpt : Option String)
    (h : fs inp = true) :
    ((html_to_pdf fs envs inp outOpt "selenium").invoked
        = [(.selenium, resolve_output inp outOpt)]
      ∧ (html_to_pdf fs envs inp outOpt "selenium").result
        = (convert_with_selenium envs.selenium inp (resolve_output inp outOpt)).result)
    ∧ ((html_to_pdf fs envs inp outOpt "weasyprint").invoked
        = [(.weasyprint, resolve_output inp outOpt)]
      ∧ (html_to_pdf fs envs inp outOpt "weasyprint").result
        = (convert_with_weasyprint envs.weasyprint inp (resolve_output inp outOpt)).result)
    ∧ ((html_to_pdf fs envs inp outOpt "pdfkit").invoked
        = [(.pdfkit, resolve_output inp outOpt)]
      ∧ (html_to_pdf fs envs inp outOpt "pdfkit").result
        = (convert_with_pdfkit envs.pdfkit inp (resolve_output inp outOpt)).result)
    ∧ ((html_to_pdf fs envs inp outOpt "playwright").invoked
        = [(.playwright, resolve_output inp outOpt)]
      ∧ (html_to_pdf fs envs inp outOpt "playwright").result
        = (convert_with_playwright envs.playwright inp (resolve_output inp outOpt)).result) := by
  simp [html_to_pdf, h]

/-- Closed instance of C2 at a concrete filesystem, environments and input. -/
theorem explicit_method_invokes_exactly_that_adapter_witness :
    ((html_to_pdf (fun _ => true) allOkEnvs "poster.html" none "selenium").invoked
        = [(.selenium, resolve_output "poster.html" none)]
      ∧ (html_to_pdf (fun _ => true) allOkEnvs "poster.html" none "selenium").result
        = (convert_with_selenium allOkEnvs.selenium "poster.html"
            (resolve_output "poster.html" none)).result)
    ∧ ((html_to_pdf (fun _ => true) allOkEnvs "poster.html" none "weasyprint").invoked
        = [(.weasyprint, resolve_output "poster.html" none)]
      ∧ (html_to_pdf (fun _ => true) allOkEnvs "poster.html" none "weasyprint").result
        = (convert_with_weasyprint allOkEnvs.weasyprint "poster.html"
            (resolve_output "poster.html" none)).result)
    ∧ ((html_to_pdf (fun _ => true) allOkEnvs "poster.html" none "pdfkit").invoked
        = [(.pdfkit, resolve_output "poster.html" none)]
      ∧ (html_to_pdf (fun _ => true) allOkEnvs "poster.html" none "pdfkit").result
        = (convert_with_pdfkit allOkEnvs.pdfkit "poster.html"
            (resolve_output "poster.html" none)).result)
    ∧ ((html_to_pdf (fun _ => true) allOkEnvs "poster.html" none "playwright").invoked
        = [(.playwright, resolve_output "poster.html" none)]
      ∧ (html_to_pdf (fun _ => true) allOkEnvs "poster.html" none "playwright").result
        = (convert_with_playwright allOkEnvs.playwright "poster.html"
            (resolve_output "poster.html" none)).result) :=
  explicit_method_invokes_exactly_that_adapter (fun _ => true) allOkEnvs
    "poster.html" none rfl

/-- C3: with an existing input and a `method` string that is neither "auto"
nor one of the four adapter names, `html_to_pdf` returns `False` and invokes
no adapter. -/
theorem unknown_method_fails_without_invoking_adapters
    (fs : String → Bool) (envs : AdapterEnvs) (inp : String) (outOpt : Option String)
    (method : String) (h : fs inp = true)
    (h0 : method ≠ "auto") (h1 : method ≠ "selenium") (h2 : method ≠ "weasyprint")
    (h3 : method ≠ "pdfkit") (h4 : method ≠ "playwright") :
    (html_to_pdf fs envs inp outOpt method).result = false
    ∧ (html_to_pdf fs envs inp outOpt method).invoked = []
    ∧ (html_to_pdf fs envs inp outOpt method).msgs
        = [.converting inp (resolve_output inp outOpt), .unknownMethod method] := by
  simp [html_to_pdf, h, h0, h1, h2, h3, h4]

/-- Closed instance of C3 at the unknown method name "chrome". -/
theorem unknown_method_fails_without_invoking_adapters_witness :
    (html_to_pdf (fun _ => true) allOkEnvs "poster.html" none "chrome").result = false
    ∧ (html_to_pdf (fun _ => true) allOkEnvs "poster.html" none "chrome").invoked = []
    ∧ (html_to_pdf (fun _ => true) allOkEnvs "poster.html" none "chrome").msgs
        = [.converting "poster.html" (resolve_output "poster.html" none),
           .unknownMethod "chrome"] :=
  unknown_method_fails_without_invoking_adapters (fun _ => true) allOkEnvs
    "poster.html" none "chrome" rfl
    (by decide) (by decide) (by decide) (by decide) (by decide)

/-- C4: when the input path does not exist, `html_to_pdf` returns `False`
with no adapter invoked and only the not-found diagnostic, for every value
of `method` and of the output option. -/
theorem missing_input_fails_before_any_backend
    (fs : String → Bool) (envs : AdapterEnvs) (inp : String) (outOpt : Option String)
    (method : String) (h : fs inp = false) :
    html_to_pdf fs envs inp outOpt method = ⟨false, [], [.notFound inp]⟩ := by
  simp [html_to_pdf, h]

/-- Closed instance of C4 at an empty filesystem and the method "auto". -/
theorem missing_input_fails_before_any_backend_witness :
    html_to_pdf (fun _ => false) allOkEnvs "poster.html" none "auto"
      = ⟨false, [], [.notFound "poster.html"]⟩ :=
  missing_input_fails_before_any_backend (fun _ => false) allOkEnvs
    "poster.html" none "auto" rfl

/-- C5: the command-line exit code is 0 exactly when `html_to_pdf` returns
`True`, is 1 exactly when it returns `False`, and takes no other value. -/
theorem exit_code_zero_iff_success
    (fs : String → Bool) (envs : AdapterEnvs) (inp : String) (outOpt : Option String)
    (method : String) :
    (mainExitCode fs envs inp outOpt method = 0
      ↔ (html_to_pdf fs envs inp outOpt method).result = true)
    ∧ (mainExitCode fs envs inp outOpt method = 1
      ↔ (html_to_pdf fs envs inp outOpt method).result = false)
    ∧ (mainExitCode fs envs inp outOpt method = 0
      ∨ mainExitCode fs envs inp outOpt method = 1) := by
  unfold mainExitCode
  by_cases h : (html_to_pdf fs envs inp outOpt method).result = true
  · simp [h]
  · rw [Bool.not_eq_true] at h
    simp [h]

/-- C6: when no explicit output path is given, every adapter attempted by
`html_to_pdf` on an existing input receives the input path with its suffix
replaced by `.pdf`; in particular the default output for `poster.html` is
`poster.pdf` and for `report.htm` is `report.pdf`. -/
theorem default_output_replaces_extension_with_pdf :
    (∀ (fs : String → Bool) (envs : AdapterEnvs) (inp method : String)
        (p : AdapterName × String), fs inp = true →
        p ∈ (html_to_pdf fs envs inp none method).invoked →
        p.2 = with_suffix inp ".pdf")
    ∧ with_suffix "poster.html" ".pdf" = "poster.pdf"
    ∧ with_suffix "report.htm" ".pdf" = "report.pdf" := by
  refine ⟨?_, by decide, by decide⟩
  intro fs envs inp method p h hp
  simp only [html_to_pdf, h, Bool.not_true, Bool.false_eq_true, if_false, reduceIte] at hp
  by_cases h0 : method = "auto"
  · simp only [h0, if_true, reduceIte] at hp
    have : ∀ l q, q ∈ (tryInOrder envs inp (resolve_output inp none) l).invoked →
        q.2 = resolve_output inp none := by
      intro l
      induction l with
      | nil => simp [tryInOrder]
      | cons m rest ih =>
        intro q hq
        by_cases hr : (runAdapter envs inp (resolve_output inp none) m).result = true
        · simp [tryInOrder, hr] at hq
          simp [hq]
        · rw [Bool.not_eq_true] at hr
          simp [tryInOrder, hr] at hq
          rcases hq with hq | hq
          · simp [hq]
          · exact ih q hq
    exact this autoMethods p hp
  · simp only [h0, reduceIte] at hp
    by_cases h1 : method = "selenium"
    · simp [h1] at hp; simp [hp, resolve_output]
    · simp only [h1, reduceIte] at hp
      by_cases h2 : method = "weasyprint"
      · simp [h2] at hp; simp [hp, resolve_output]
      · simp only [h2, reduceIte] at hp
        by_cases h3 : method = "pdfkit"
        · simp [h3] at hp; simp [hp, resolve_output]
        · simp only [h3, reduceIte] at hp
          by_cases h4 : method = "playwright"
          · simp [h4] at hp; simp [hp, resolve_output]
          · simp [h4] at hp

/-- Closed instance of C6: on `poster.html` in auto mode the first invoked
adapter receives `poster.pdf`, the default output path. -/
theorem default_output_replaces_extension_with_pdf_witness :
    ((AdapterName.selenium, "poster.pdf")
        ∈ (html_to_pdf (fun _ => true) allOkEnvs "poster.html" none "auto").invoked)
    ∧ ((AdapterName.selenium, "poster.pdf") : AdapterName × String).2
        = with_suffix "poster.html" ".pdf" :=
  ⟨by decide,
   default_output_replaces_extension_with_pdf.1 (fun _ => true) allOkEnvs
     "poster.html" "auto" (AdapterName.selenium, "poster.pdf") rfl (by decide)⟩

/-- C7: each of the four adapters is a total boolean-valued function of its
environment: in every environment (dependency missing, any step raising, or
a clean run) it returns a boolean rather than letting an exception escape,
and on every failing run it prints exactly one failure diagnostic (the
missing-dependency hint or the conversion-failed message) while on every
succeeding run it prints the success line. -/
theorem adapters_are_total_and_report_diagnostics
    (se : SeleniumEnv) (pw : PlaywrightEnv) (we : WeasyprintEnv) (pk : PdfkitEnv)
    (inp out : String) :
    reportsOutcome .selenium out (convert_with_selenium se inp out)
    ∧ reportsOutcome .playwright out (convert_with_playwright pw inp out)
    ∧ reportsOutcome .weasyprint out (convert_with_weasyprint we inp out)
    ∧ reportsOutcome .pdfkit out (convert_with_pdfkit pk inp out) := by
  refine ⟨?_, ?_, ?_, ?_⟩
  · obtain ⟨a, b, c⟩ := se
    cases a <;> cases b <;> cases c <;>
      simp [convert_with_selenium, seleniumTry, reportsOutcome]
  · obtain ⟨a, b, c⟩ := pw
    cases a <;> cases b <;> cases c <;>
      simp [convert_with_playwright, playwrightTry, reportsOutcome]
  · obtain ⟨a, b⟩ := we
    cases a <;> cases b <;>
      simp [convert_with_weasyprint, weasyprintTry, reportsOutcome]
  · obtain ⟨a, b⟩ := pk
    cases a <;> cases b <;>
      simp [convert_with_pdfkit, pdfkitTry, reportsOutcome]

/-- C8: on every exit path, each adapter has released its external resource
by the time it returns: whenever the selenium or playwright adapter acquired
its browser/driver, it released it (on success and on raising paths alike),
and the weasyprint and pdfkit adapters acquire no browser process or driver
session at all. -/
theorem adapters_release_acquired_resources
    (se : SeleniumEnv) (pw : PlaywrightEnv) (we : WeasyprintEnv) (pk : PdfkitEnv)
    (inp out : String) :
    ((convert_with_selenium se inp out).acquired = true →
      (convert_with_selenium se inp out).released = true)
    ∧ ((convert_with_playwright pw inp out).acquired = true →
      (convert_with_playwright pw inp out).released = true)
    ∧ (convert_with_weasyprint we inp out).acquired = false
    ∧ (convert_with_pdfkit pk inp out).acquired = false := by
  refine ⟨?_, ?_, ?_, ?_⟩
  · obtain ⟨a, b, c⟩ := se
    cases a <;> cases b <;> cases c <;>
      simp [convert_with_selenium, seleniumTry]
  · obtain ⟨a, b, c⟩ := pw
    cases a <;> cases b <;> cases c <;>
      simp [convert_with_playwright, playwrightTry]
  · obtain ⟨a, b⟩ := we
    cases a <;> cases b <;>
      simp [convert_with_weasyprint, weasyprintTry]
  · obtain ⟨a, b⟩ := pk
    cases a <;> cases b <;>
      simp [convert_with_pdfkit, pdfkitTry]

/-- Closed instance of C8 on the raising-render environments: both browser
adapters acquired their resource and released it although the conversion
raised. -/
theorem adapters_release_acquired_resources_witness :
    (convert_with_selenium allRaiseEnvs.selenium "poster.html" "poster.pdf").released = true
    ∧ (convert_with_playwright allRaiseEnvs.playwright "poster.html" "poster.pdf").released
        = true :=
  ⟨(adapters_release_acquired_resources allRaiseEnvs.selenium allRaiseEnvs.playwright
      allRaiseEnvs.weasyprint allRaiseEnvs.pdfkit "poster.html" "poster.pdf").1 rfl,
   (adapters_release_acquired_resources allRaiseEnvs.selenium allRaiseEnvs.playwright
      allRaiseEnvs.weasyprint allRaiseEnvs.pdfkit "poster.html" "poster.pdf").2.1 rfl⟩

/-- C9: existence of the input is checked before the method name is
examined: with a nonexistent input and any method string (in particular an
unknown one), the only diagnostic is the not-found message and the
unknown-method message is never printed. -/
theorem input_check_precedes_method_dispatch
    (fs : String → Bool) (envs : AdapterEnvs) (inp : String) (outOpt : Option String)
    (method : String) (h : fs inp = false) :
    (html_to_pdf fs envs inp outOpt method).msgs = [.notFound inp]
    ∧ ∀ s, Msg.unknownMethod s ∉ (html_to_pdf fs envs inp outOpt method).msgs := by
  constructor
  · simp [html_to_pdf, h]
  · intro s
    simp [html_to_pdf, h]

/-- Closed instance of C9 at the unknown method name "bogus" on an empty
filesystem. -/
theorem input_check_precedes_method_dispatch_witness :
    (html_to_pdf (fun _ => false) allOkEnvs "poster.html" none "bogus").msgs
      = [.notFound "poster.html"]
    ∧ Msg.unknownMethod "bogus"
        ∉ (html_to_pdf (fun _ => false) allOkEnvs "poster.html" none "bogus").msgs :=
  ⟨(input_check_precedes_method_dispatch (fun _ => false) allOkEnvs
      "poster.html" none "bogus" rfl).1,
   (input_check_precedes_method_dispatch (fun _ => false) allOkEnvs
      "poster.html" none "bogus" rfl).2 "bogus"⟩

/-- C10: the default output path replaces only the final extension:
`archive.tar.gz` yields `archive.tar.pdf` (not `archive.pdf`), and an
extensionless input `poster` yields `poster.pdf` by appending the suffix;
accordingly an auto-mode run on `archive.tar.gz` hands every adapter
`archive.tar.pdf`. -/
theorem default_output_replaces_only_final_extension :
    with_suffix "archive.tar.gz" ".pdf" = "archive.tar.pdf"
    ∧ with_suffix "poster" ".pdf" = "poster.pdf"
    ∧ (html_to_pdf (fun _ => true) allOkEnvs "archive.tar.gz" none "auto").invoked
        = [(.selenium, "archive.tar.pdf")] := by
  refine ⟨by decide, by decide, by decide⟩
